import Mathlib

/-!
Verification of the PTAL review-tracking reconciliation engine of the
withstudiocms/bots repository (packages `apollo` and `artemis`).

The development shallowly embeds the review reducer
(`computePullRequestStatus`, `parsePullRequest`, the review dedup pass),
the embed composer (`makePTALEmbed`), the reconciler (`editPtalMessage`),
the two sweep drivers (`checkPtalMessages` of apollo and
`scheduledPTALRefresh` of artemis), the user-triggered creation follow-up
(`ptalFollowup`) and the in-process event bus (`makeEventBus`).

JavaScript `Map<string, string>` values are embedded as association lists
that keep insertion order; `get` returns the first binding, `set` replaces
in place when the key is present and appends otherwise, `delete` removes
the key.  Machine integers do not occur; all numbers are small naturals.
-/

/-- The five possible states of a pull request (`PullRequestState`). -/
inductive PullRequestState where
  | draft
  | waiting
  | approved
  | changes
  | merged
deriving DecidableEq, Repr

/-- Review status enum (`ReviewStatus` in `ptal.ts`). -/
inductive ReviewStatus where
  | COMMENTED
  | APPROVED
  | CHANGES_REQUESTED
  | UNKNOWN
deriving DecidableEq, Repr

/--
The fields of the GitHub pull-request payload consulted by the engine.
In the Octokit response type `draft` is an optional boolean and
`mergeable` is `boolean | null`; both are embedded as `Option Bool`
so that JavaScript truthiness can be modelled exactly.
-/
structure PullRequest where
  title : String
  draft : Option Bool
  merged : Bool
  mergeable : Option Bool
  mergeable_state : String
deriving DecidableEq, Repr

/-- JavaScript truthiness of a possibly-absent boolean (`undefined`/`null` are falsy). -/
def truthy (o : Option Bool) : Bool :=
  o.getD false

/-- A JavaScript `Map<string, string>` as an insertion-ordered association list. -/
abbrev ReviewMap := List (String × String)

/-- `Map.get`: the first binding of the key, if any. -/
def mapGet (m : ReviewMap) (k : String) : Option String :=
  (m.find? (fun p => p.1 == k)).map (fun p => p.2)

/-- `Map.delete`: remove the bindings of the key. -/
def mapDelete (m : ReviewMap) (k : String) : ReviewMap :=
  m.filter (fun p => p.1 != k)

/-- `Map.set`: replace in place when the key is present, append otherwise. -/
def mapSet (m : ReviewMap) (k v : String) : ReviewMap :=
  if m.any (fun p => p.1 == k) then
    m.map (fun p => if p.1 == k then (p.1, v) else p)
  else
    m ++ [(k, v)]

/-- `Array.from(reviews.keys())`: the keys in insertion order. -/
def reviewKeys (m : ReviewMap) : List String :=
  m.map (fun p => p.1)

/-- JavaScript truthiness of a possibly-absent string (`undefined` and `""` are falsy). -/
def jsTruthyStr (o : Option String) : Bool :=
  match o with
  | none => false
  | some s => s != ""

/--
`computePullRequestStatus` from `utils/ptal.ts` (artemis) and
`utils/ptal/parsePullRequest.ts` (apollo); the two sources are textually
identical.  `!pr.mergeable` is truthiness negation, `reviews.size === 0`
is emptiness of the map, and the `CHANGES_REQUESTED` scan walks the key
array and re-reads the map, exactly as the source does.  The source
tests `if (reviewAuthors.find(...))`, i.e. JavaScript truthiness of the
*found author string* — an empty-string author is falsy — embedded here
with `jsTruthyStr` on the `find?` result.
-/
def computePullRequestStatus (pr : PullRequest) (reviews : ReviewMap) : PullRequestState :=
  if truthy pr.draft then
    .draft
  else if pr.merged then
    .merged
  else if !truthy pr.mergeable || reviews.length == 0 || pr.mergeable_state == "blocked" then
    .waiting
  else
    let reviewAuthors := reviewKeys reviews
    if jsTruthyStr (reviewAuthors.find? (fun author => mapGet reviews author == some "CHANGES_REQUESTED")) then
      .changes
    else if truthy pr.mergeable
        && !(jsTruthyStr (reviewAuthors.find? (fun author => mapGet reviews author == some "CHANGES_REQUESTED"))) then
      .approved
    else
      .waiting

/--
Modelled from the spec: the six-rule first-match-wins status
classification of §4.1, stated over the spec's `PullRequestSnapshot`
whose `draft`, `merged` and `mergeable` fields are boolean flags, and
whose rule 4 asks whether any retained review entry has state
`CHANGES_REQUESTED`.  Used only as the specification side of the
refinement claims.
-/
def specStatus (draftFlag mergedFlag mergeableFlag : Bool) (mergeableState : String)
    (m : ReviewMap) : PullRequestState :=
  if draftFlag then
    .draft
  else if mergedFlag then
    .merged
  else if mergeableFlag == false || m.length == 0 || mergeableState == "blocked" then
    .waiting
  else if m.any (fun p => p.2 == "CHANGES_REQUESTED") then
    .changes
  else if mergeableFlag == true && !(m.any (fun p => p.2 == "CHANGES_REQUESTED")) then
    .approved
  else
    .waiting

/-- `convertStateToStatus` from `utils/ptal.ts`. -/
def convertStateToStatus (status : String) : ReviewStatus :=
  if status == "COMMENTED" then .COMMENTED
  else if status == "APPROVED" then .APPROVED
  else if status == "CHANGES_REQUESTED" then .CHANGES_REQUESTED
  else .UNKNOWN

/-- `getReviewEmoji` from `utils/ptal.ts`. -/
def getReviewEmoji (status : ReviewStatus) : String :=
  if status == ReviewStatus.APPROVED then ":white_check_mark:"
  else if status == ReviewStatus.CHANGES_REQUESTED then ":no_entry_sign:"
  else if status == ReviewStatus.COMMENTED then ":speech_balloon:"
  else ":question:"

/-- Brand / Purple. -/
def BRAND_COLOR : Nat := 0xa581f3

/-- Draft / Grey. -/
def DRAFT_COLOR : Nat := 0xcccccc

/-- Success / Green. -/
def SUCCESS_COLOR : Nat := 0x22c95f

/-- Danger / Red. -/
def DANGER_COLOR : Nat := 0x9c0238

/-- `prStatusMap`: state → Discord label. -/
def prStatusMap : List (PullRequestState × String) :=
  [(.draft, ":white_circle: Draft"),
   (.approved, ":white_check_mark: Approved"),
   (.changes, ":no_entry_sign: Changes requested"),
   (.merged, ":purple_circle: Merged"),
   (.waiting, ":hourglass: Awaiting reviews")]

/-- `prStatusColors`: state → embed color. -/
def prStatusColors : List (PullRequestState × Nat) :=
  [(.draft, DRAFT_COLOR),
   (.approved, SUCCESS_COLOR),
   (.changes, DANGER_COLOR),
   (.merged, SUCCESS_COLOR),
   (.waiting, BRAND_COLOR)]

/-- `Map.get` on the status-label table. -/
def statusMapGet (s : PullRequestState) : Option String :=
  (prStatusMap.find? (fun p => p.1 == s)).map (fun p => p.2)

/-- `Map.get` on the status-color table. -/
def statusColorGet (s : PullRequestState) : Option Nat :=
  (prStatusColors.find? (fun p => p.1 == s)).map (fun p => p.2)

/-- One rendered review entry of `ParsedPR`. -/
structure Review where
  author : String
  status : ReviewStatus
deriving DecidableEq, Repr

/-- `ParsedPR` from `utils/ptal.ts`. -/
structure ParsedPR where
  color : Nat
  statusType : PullRequestState
  statusLabel : String
  title : String
  reviews : List Review
deriving DecidableEq, Repr

/--
`parsePullRequest` from `utils/ptal.ts`.  The `!` non-null assertions of
the source on the two table lookups are embedded as `Option.get!`.
-/
def parsePullRequest (pr : PullRequest) (reviews : ReviewMap) : ParsedPR :=
  let status := computePullRequestStatus pr reviews
  let reviewAuthors := reviewKeys reviews
  { color := (statusColorGet status).get!
    statusType := status
    statusLabel := (statusMapGet status).get!
    title := pr.title
    reviews := reviewAuthors.map (fun author =>
      { author := author
        status := convertStateToStatus ((mapGet reviews author).get!) }) }

/-- A raw review element of the GitHub `listReviews` response: the author login (the `user` field may be null) and the review state string. -/
structure RawReview where
  user : Option String
  state : String
deriving DecidableEq, Repr

/--
One step of the review dedup pass of `makePTALEmbed` (artemis) and
`makePtalEmbed` (apollo): skip null users; when the author's last seen
state is truthy and equal to the incoming state, keep the map unchanged;
otherwise delete the author's entry and re-insert it at the end.
-/
def dedupStep (seen : ReviewMap) (review : RawReview) : ReviewMap :=
  match review.user with
  | none => seen
  | some login =>
    let seenReview := mapGet seen login
    if jsTruthyStr seenReview && seenReview == some review.state then
      seen
    else
      mapSet (mapDelete seen login) login review.state

/-- The full dedup pass over the raw review list, in given order. -/
def dedupReviews (reviewList : List RawReview) : ReviewMap :=
  reviewList.foldl dedupStep []

/--
The apollo variant of the dedup pass (`makePtalEmbed.ts` lines 65-81):
the same mutation of `seen` is performed inside a `filter` callback that
also accumulates the kept raw reviews.  Returns `(seen, kept)`.
-/
def apolloFilterPass (reviewList : List RawReview) : ReviewMap × List RawReview :=
  reviewList.foldl
    (fun acc item =>
      match item.user with
      | none => acc
      | some login =>
        let seenReview := mapGet acc.1 login
        if jsTruthyStr seenReview && seenReview == some item.state then
          acc
        else
          (mapSet (mapDelete acc.1 login) login item.state, acc.2 ++ [item]))
    ([], [])

/--
The `_uniqueReviews` value of the apollo source: the kept raw reviews
with `DISMISSED` entries filtered out.  The source never uses this
value; the unfiltered `seen` map is what reaches `parsePullRequest`.
-/
def apolloUniqueReviews (reviewList : List RawReview) : List RawReview :=
  (apolloFilterPass reviewList).2.filter (fun review => !(review.state == "DISMISSED"))

/-- The `seen` map the apollo source actually passes to `parsePullRequest`. -/
def apolloSeen (reviewList : List RawReview) : ReviewMap :=
  (apolloFilterPass reviewList).1

/-- The parts of a `URL` object the engine consults. -/
structure PrUrl where
  href : String
  pathname : String
deriving DecidableEq, Repr

/-- `new URL("https://github.com/" + owner + "/" + repo + "/pull/" + n)` as built by the reconciler. -/
def mkPullRequestUrl (owner repo : String) (n : Nat) : PrUrl :=
  { href := "https://github.com/" ++ owner ++ "/" ++ repo ++ "/pull/" ++ toString n
    pathname := "/" ++ owner ++ "/" ++ repo ++ "/pull/" ++ toString n }

/-- One embed field. -/
structure EmbedField where
  name : String
  value : String
deriving DecidableEq, Repr

/-- The embed produced by the builder chain in `makePTALEmbed`: title, color, the composition timestamp, and the three fields. -/
structure DiscordEmbed where
  title : String
  color : Nat
  timestamp : Nat
  fields : List EmbedField
deriving DecidableEq, Repr

/-- A link button. -/
structure LinkButton where
  label : String
  url : String
deriving DecidableEq, Repr

/-- The message payload shared by the create and edit shapes (`commonData`). -/
structure MessagePayload where
  content : String
  embeds : List DiscordEmbed
  components : List (List LinkButton)
  allowedMentionRoles : List String
deriving DecidableEq, Repr

/-- The pair of payloads returned by `makePTALEmbed`: the interaction response (callback type 4, `CHANNEL_MESSAGE_WITH_SOURCE`) and the edit payload. -/
structure PtalPayloads where
  newInteractionType : Nat
  newInteractionData : MessagePayload
  edit : MessagePayload
deriving DecidableEq, Repr

/-- Per-guild configuration rows: guild id → optional `ptal_announcement_role` (the `guilds` table). -/
abbrev GuildRows := List (String × Option String)

/-- The db lookup of `makePTALEmbed`: the guild row, then its optional role. -/
def guildPtalRole (guilds : GuildRows) (guildId : String) : Option String :=
  ((guilds.find? (fun p => p.1 == guildId)).map (fun p => p.2)).bind id

/-- `splitPath[0].slice(1).split('/')` destructured as `[owner, repo]`; a missing element is JavaScript `undefined`, which stringifies as shown. -/
def ownerRepoOfUrl (url : PrUrl) : String × String :=
  let splitPath := url.pathname.splitOn "/pull/"
  let parts := ((splitPath.headD "").drop 1).splitOn "/"
  (parts.getD 0 "undefined", parts.getD 1 "undefined")

/-- The Reviews field body: one line per review, or the placeholder when the joined string is empty (the `|| '*No reviews yet*'` fallback). -/
def reviewsFieldValue (reviews : List Review) : String :=
  let joined := String.intercalate "\n"
    (reviews.map (fun review =>
      getReviewEmoji review.status ++ " [@" ++ review.author
        ++ "](https://github.com/" ++ review.author ++ ")"))
  if joined == "" then "*No reviews yet*" else joined

/--
`makePTALEmbed` from `utils/ptal.ts` (artemis; the apollo `makePtalEmbed`
composes the same content): read the guild's optional announcement role,
dedup the review list into `seen`, parse the pull request, and build the
message content, embed, link buttons and allowed mentions.  `now` is the
clock value captured by `.setTimestamp(new Date())`.
-/
def makePTALEmbed (guilds : GuildRows) (pr : PullRequest) (reviewList : List RawReview)
    (description : String) (pullRequestUrl : PrUrl) (guildId : String) (now : Nat) :
    PtalPayloads :=
  let ptalRoleId := guildPtalRole guilds guildId
  let or := ownerRepoOfUrl pullRequestUrl
  let seen := dedupReviews reviewList
  let parsed := parsePullRequest pr seen
  let rolePing := if jsTruthyStr ptalRoleId then "<@&" ++ ptalRoleId.getD "" ++ ">\n" else ""
  let message := rolePing ++ "# PTAL / Ready for Review\n\n" ++ description
  let embed : DiscordEmbed :=
    { title := parsed.title
      color := parsed.color
      timestamp := now
      fields :=
        [{ name := "Repository"
           value := "[" ++ or.1 ++ "/" ++ or.2 ++ "]("
             ++ (pullRequestUrl.href.splitOn "/pull/").headD "" ++ ")" },
         { name := "Status", value := parsed.statusLabel },
         { name := "Reviews", value := reviewsFieldValue parsed.reviews }] }
  let viewOnGithub : LinkButton := { label := "View on GitHub", url := pullRequestUrl.href }
  let viewFilesChanged : LinkButton :=
    { label := "View Changed Files", url := pullRequestUrl.href ++ "/files" }
  let commonData : MessagePayload :=
    { content := message
      embeds := [embed]
      components := [[viewOnGithub, viewFilesChanged]]
      allowedMentionRoles := if jsTruthyStr ptalRoleId then [ptalRoleId.getD ""] else [] }
  { newInteractionType := 4
    newInteractionData := commonData
    edit := commonData }

/-- A row of the `ptals` table (`NotificationRecord`). -/
structure PtalRecord where
  id : Nat
  channel : String
  message : String
  repository : String
  owner : String
  pr : Nat
  description : String
  guildId : String
deriving DecidableEq, Repr

/-- A Discord channel as consulted by the reconciler. `GUILD_TEXT` has type code 0. -/
structure Channel where
  id : String
  type : Nat
  guild_id : String
deriving DecidableEq, Repr

/-- `Discord.ChannelTypes.GUILD_TEXT`. -/
def GUILD_TEXT : Nat := 0

/-- Outcome of `getChannel`: the call throws, or resolves to null or a channel. -/
inductive ChannelResult where
  | failure
  | success (c : Option Channel)
deriving DecidableEq, Repr

/--
The explicit state the reconciliation engine acts on: the `ptals` table
(with the auto-increment counter), the `guilds` table, the hosting API's
pull requests and review lists keyed by owner/repo/number, the channel
service, and the chat messages keyed by channel id and message id.
-/
structure World where
  ptals : List PtalRecord
  nextId : Nat
  guilds : GuildRows
  github : List ((String × String × Nat) × (PullRequest × List RawReview))
  channels : List (String × ChannelResult)
  messages : List ((String × String) × MessagePayload)

/-- Fetch a pull request and its review list; `none` models a thrown API error. -/
def lookupGithub (w : World) (owner repo : String) (n : Nat) :
    Option (PullRequest × List RawReview) :=
  (w.github.find? (fun e => e.1 == (owner, repo, n))).map (fun e => e.2)

/-- Fetch a channel; an id for which the service has no entry throws. -/
def lookupChannel (w : World) (channelId : String) : ChannelResult :=
  ((w.channels.find? (fun p => p.1 == channelId)).map (fun p => p.2)).getD .failure

/-- Fetch a message; `none` models the throw when the message no longer exists. -/
def lookupMessage (w : World) (channelId messageId : String) : Option MessagePayload :=
  (w.messages.find? (fun p => p.1 == (channelId, messageId))).map (fun p => p.2)

/-- `updateMessage`: overwrite the stored payload; `none` models the throw when the message is gone. -/
def updateMessage (w : World) (channelId messageId : String) (payload : MessagePayload) :
    Option World :=
  if w.messages.any (fun p => p.1 == (channelId, messageId)) then
    some { w with messages :=
      w.messages.map (fun p => if p.1 == (channelId, messageId) then (p.1, payload) else p) }
  else
    none

/-- `db.delete(ptalTable).where(eq(ptalTable.id, id))`. -/
def deletePtal (w : World) (id : Nat) : World :=
  { w with ptals := w.ptals.filter (fun r => r.id != id) }

/-- Outcome of one reconciliation: it resolves with the new world, or an exception escapes with the world as of the throw. -/
inductive RunResult where
  | ok (w : World)
  | err (w : World)

/-- The world carried by either outcome. -/
def RunResult.world : RunResult → World
  | .ok w => w
  | .err w => w

/--
`editPTALEmbed` from `utils/ptal.ts` (artemis); the apollo
`editPtalMessage` performs the same steps.  Fetch the pull request, the
review list and the channel; return silently unless the channel is a
guild text channel; fetch the tracked message; compose the edit payload
with `makePTALEmbed`; update the message; and when the pull request is
merged, delete the `ptals` row.  Any throw surfaces as `.err`.
-/
def editPtalMessage (data : PtalRecord) (now : Nat) (w : World) : RunResult :=
  match lookupGithub w data.owner data.repository data.pr with
  | none => .err w
  | some (pullReq, reviewList) =>
    match lookupChannel w data.channel with
    | .failure => .err w
    | .success none => .ok w
    | .success (some channel) =>
      if channel.type = GUILD_TEXT then
        match lookupMessage w data.channel data.message with
        | none => .err w
        | some _originalMessage =>
          let pullRequestUrl := mkPullRequestUrl data.owner data.repository data.pr
          let payloads := makePTALEmbed w.guilds pullReq reviewList data.description
            pullRequestUrl channel.guild_id now
          match updateMessage w channel.id data.message payloads.edit with
          | none => .err w
          | some w1 =>
            if pullReq.merged then .ok (deletePtal w1 data.id) else .ok w1
      else
        .ok w

/--
One iteration of the apollo sweep body (`checkPtalMessages`): fetch the
channel and reconcile, with the whole body wrapped in `try { } catch {}`
so every outcome yields a world and the loop continues.
-/
def tryReconcile (now : Nat) (m : PtalRecord) (w : World) : World :=
  match lookupChannel w m.channel with
  | .failure => w
  | .success none => w
  | .success (some _) => (editPtalMessage m now w).world

/-- The apollo sweep loop over the row list fetched up front. -/
def checkGo (now : Nat) : List PtalRecord → World → World
  | [], w => w
  | m :: rest, w =>
    checkGo now rest
      (match lookupChannel w m.channel with
       | .failure => w
       | .success none => w
       | .success (some _) =>
         match editPtalMessage m now w with
         | .ok w2 => w2
         | .err w2 => w2)

/-- `checkPtalMessages` from apollo `utils/ptal/checkPtalMessages.ts`: select all rows, then loop. -/
def checkPtalMessages (now : Nat) (w : World) : World :=
  checkGo now w.ptals w

/--
The artemis scheduled sweep loop: `Effect.forEach(editPTALEmbed)`
processes the rows sequentially and short-circuits on the first failure;
the surrounding `Effect.catchAllCause(Effect.logError)` turns that
failure into a logged, successful sweep result.
-/
def refreshGo (now : Nat) : List PtalRecord → World → World
  | [], w => w
  | d :: rest, w =>
    match editPtalMessage d now w with
    | .ok w2 => refreshGo now rest w2
    | .err w2 => w2

/-- `scheduledPTALRefresh` from artemis `services/ptal-service.ts`: select all rows, then the short-circuiting forEach under a sweep-level catch. -/
def scheduledPTALRefresh (now : Nat) (w : World) : World :=
  refreshGo now w.ptals w

/-- Outcome of `updateOriginalWebhookMessage`: the call fails, or returns the posted message's channel id and message id. -/
inductive WebhookResult where
  | failure
  | success (channelId messageId : String)
deriving DecidableEq, Repr

/--
`ptalFollowup` from artemis `services/ptal-service.ts`: post/update the
notification chat message, and only `Effect.tap` the `ptals` insert onto
a successful result; on failure the `catchAllCause` branch edits and
later deletes the ephemeral webhook reply and touches no database state.
-/
def ptalFollowup (webhookResult : WebhookResult) (descriptionInput owner repo : String)
    (prNumber : Nat) (currentGuildId : String) (w : World) : World :=
  match webhookResult with
  | .failure => w
  | .success channelId messageId =>
    { w with
      ptals := w.ptals ++
        [{ id := w.nextId
           channel := channelId
           message := messageId
           repository := repo
           owner := owner
           pr := prNumber
           description := descriptionInput
           guildId := currentGuildId }]
      nextId := w.nextId + 1 }

theorem find?_isSome_eq_any {α : Type} (l : List α) (p : α → Bool) :
    (l.find? p).isSome = l.any p := by
  induction l with
  | nil => rfl
  | cons x xs ih =>
    by_cases h : p x <;> simp [List.find?_cons, h, ih]

theorem mapGet_eq_of_nodup (m : ReviewMap) (hnd : (reviewKeys m).Nodup) :
    ∀ p ∈ m, mapGet m p.1 = some p.2 := by
  induction m with
  | nil => intro p hp; cases hp
  | cons q rest ih =>
    intro p hp
    have hnd' : q.1 ∉ reviewKeys rest ∧ (reviewKeys rest).Nodup := by
      simpa [reviewKeys] using hnd
    rcases List.mem_cons.mp hp with rfl | hmem
    · simp [mapGet, List.find?_cons]
    · have hne : (q.1 == p.1) = false := by
        have : p.1 ∈ reviewKeys rest := List.mem_map_of_mem (fun r => r.1) hmem
        have : q.1 ≠ p.1 := fun he => hnd'.1 (he ▸ this)
        simpa using this
      have := ih hnd'.2 p hmem
      simpa [mapGet, List.find?_cons, hne] using this

theorem mapGet_some_mem (m : ReviewMap) (a v : String) (h : mapGet m a = some v) :
    ∃ p ∈ m, p.1 = a ∧ p.2 = v := by
  unfold mapGet at h
  rcases Option.map_eq_some'.mp h with ⟨q, hq, hv⟩
  refine ⟨q, List.mem_of_find?_eq_some hq, ?_, hv⟩
  have := List.find?_some hq
  simpa using this

theorem keysAny_changes_eq (m : ReviewMap) (hnd : (reviewKeys m).Nodup) :
    ((reviewKeys m).any (fun a => mapGet m a == some "CHANGES_REQUESTED"))
      = m.any (fun p => p.2 == "CHANGES_REQUESTED") := by
  rw [Bool.eq_iff_iff]
  simp only [List.any_eq_true, reviewKeys, List.mem_map]
  constructor
  · rintro ⟨a, ⟨p, hp, rfl⟩, hget⟩
    rw [beq_iff_eq] at hget
    rcases mapGet_some_mem m p.1 "CHANGES_REQUESTED" hget with ⟨q, hq, _, hv⟩
    exact ⟨q, hq, by simp [hv]⟩
  · rintro ⟨p, hp, hv⟩
    refine ⟨p.1, ⟨p, hp, rfl⟩, ?_⟩
    rw [mapGet_eq_of_nodup m hnd p hp]
    simpa using hv

theorem jsTruthyStr_find?_eq_isSome (keys : List String) (p : String → Bool)
    (h : "" ∉ keys) : jsTruthyStr (keys.find? p) = (keys.find? p).isSome := by
  cases hf : keys.find? p with
  | none => rfl
  | some a =>
    have ha : a ∈ keys := List.mem_of_find?_eq_some hf
    have hne : a ≠ "" := by
      rintro rfl
      exact h ha
    simp [jsTruthyStr, hne]

/-- Concrete instantiation of the C1 theorem: a clean, mergeable, reviewed snapshot. -/
def c1pr : PullRequest :=
  { title := "t", draft := some false, merged := false, mergeable := some true
    mergeable_state := "clean" }

/-- A review map whose only author is the empty string — a JavaScript-falsy key. -/
def c1badMap : ReviewMap := [("", "CHANGES_REQUESTED")]

/--
Counterexample to claim C1 as stated: `if (reviewAuthors.find(...))`
tests JavaScript truthiness of the found author string, so when the only
`CHANGES_REQUESTED` entry belongs to the empty-string author the changes
rule is skipped (the found `""` is falsy) and `!""` lets the approved
rule fire: the source returns `approved` where the spec's rule 4 says
`changes` — inside the claim's domain (boolean mergeable, unique keys).
-/
theorem empty_author_breaks_six_rule_order :
    c1pr.mergeable = some true ∧ (reviewKeys c1badMap).Nodup ∧
    computePullRequestStatus c1pr c1badMap = PullRequestState.approved ∧
    specStatus (truthy c1pr.draft) c1pr.merged true c1pr.mergeable_state c1badMap
      = PullRequestState.changes := by
  decide

/--
Claim C1, amended: for every pull-request snapshot whose `mergeable`
field is an actual boolean (the spec's `PullRequestSnapshot` data model)
and every review map with unique, non-empty author keys (what a
JavaScript `Map` of GitHub logins guarantees), `computePullRequestStatus`
classifies exactly by the spec's six first-match-wins rules, embodied by
`specStatus`.  When an empty-string author carries the only
`CHANGES_REQUESTED` state, the truthiness test on the found author makes
rules 4–5 misfire and the source returns `approved` instead of `changes`.
-/
theorem computePullRequestStatus_follows_spec (pr : PullRequest) (m : ReviewMap) (mb : Bool)
    (hmb : pr.mergeable = some mb) (hnd : (reviewKeys m).Nodup)
    (hne : "" ∉ reviewKeys m) :
    computePullRequestStatus pr m
      = specStatus (truthy pr.draft) pr.merged mb pr.mergeable_state m := by
  have htr : jsTruthyStr ((reviewKeys m).find?
        (fun author => mapGet m author == some "CHANGES_REQUESTED"))
      = ((reviewKeys m).find?
        (fun author => mapGet m author == some "CHANGES_REQUESTED")).isSome :=
    jsTruthyStr_find?_eq_isSome (reviewKeys m) _ hne
  have hchanges : ((reviewKeys m).find?
      (fun author => mapGet m author == some "CHANGES_REQUESTED")).isSome
      = m.any (fun p => p.2 == "CHANGES_REQUESTED") := by
    rw [find?_isSome_eq_any, keysAny_changes_eq m hnd]
  unfold computePullRequestStatus specStatus
  rw [hmb]
  simp only [htr, hchanges]
  cases mb with
  | false => simp [truthy]
  | true => simp [truthy]; rfl

/-- The review map of the C1 witness. -/
def c1map : ReviewMap := [("alice", "APPROVED")]

/-- Witness for the amended C1 theorem: the hypotheses hold and the classification agrees at a concrete input. -/
theorem computePullRequestStatus_follows_spec_witness :
    c1pr.mergeable = some true ∧ (reviewKeys c1map).Nodup ∧ "" ∉ reviewKeys c1map ∧
    computePullRequestStatus c1pr c1map
      = specStatus (truthy c1pr.draft) c1pr.merged true c1pr.mergeable_state c1map :=
  ⟨rfl, by decide, by decide,
    computePullRequestStatus_follows_spec c1pr c1map true rfl (by decide) (by decide)⟩

/-- A snapshot that is simultaneously draft and merged. -/
def c2pr : PullRequest :=
  { title := "t", draft := some true, merged := true, mergeable := some true
    mergeable_state := "clean" }

/--
Counterexample to claim C2 as stated: on a snapshot with both
`merged = true` and `draft = true`, `computePullRequestStatus` returns
`draft`, not `merged` — the draft rule fires first.
-/
theorem merged_and_draft_is_not_merged :
    c2pr.merged = true ∧ computePullRequestStatus c2pr [] ≠ PullRequestState.merged := by
  decide

/--
Claim C2, amended: for every snapshot with `merged = true` whose `draft`
flag is not truthy, the classification returns `merged`; when `draft` is
also true the draft rule precedes and the status is `draft` instead.
-/
theorem status_merged_of_merged_not_draft (pr : PullRequest) (m : ReviewMap)
    (hm : pr.merged = true) (hd : truthy pr.draft = false) :
    computePullRequestStatus pr m = PullRequestState.merged := by
  unfold computePullRequestStatus
  rw [hd, hm]
  simp

/-- A merged, non-draft snapshot. -/
def c2okPr : PullRequest :=
  { title := "t", draft := some false, merged := true, mergeable := some true
    mergeable_state := "clean" }

/-- Witness for the amended C2 theorem at a concrete merged, non-draft snapshot. -/
theorem status_merged_of_merged_not_draft_witness :
    computePullRequestStatus c2okPr [] = PullRequestState.merged :=
  status_merged_of_merged_not_draft c2okPr [] rfl rfl

/-- A review list consisting of a single dismissed review. -/
def dismissedOnly : List RawReview := [{ user := some "alice", state := "DISMISSED" }]

/--
Claim C3 (code bug): the review map actually passed onward — `seen`,
built by `dedupReviews` in artemis and by `apolloSeen` in apollo —
retains `DISMISSED` entries.  The apollo source does filter `DISMISSED`
out, but only into the never-used `_uniqueReviews` list, so the filter is
dead code: at the failing input the discarded list is dismissal-free
while the map that reaches `parsePullRequest` still carries the
`DISMISSED` review.
-/
theorem dismissed_reviews_survive_dedup :
    dedupReviews dismissedOnly = [("alice", "DISMISSED")] ∧
    apolloSeen dismissedOnly = [("alice", "DISMISSED")] ∧
    (apolloUniqueReviews dismissedOnly).all (fun r => !(r.state == "DISMISSED")) = true ∧
    (dedupReviews dismissedOnly).any (fun p => p.2 == "DISMISSED") = true := by
  decide

/-- The review list of the C4 scenario. -/
def c4list : List RawReview :=
  [{ user := some "A", state := "APPROVED" },
   { user := some "B", state := "CHANGES_REQUESTED" },
   { user := some "A", state := "APPROVED" }]

/-- The snapshot of the C4 scenario. -/
def c4pr : PullRequest :=
  { title := "t", draft := some false, merged := false, mergeable := some true
    mergeable_state := "clean" }

/--
Counterexample to claim C4 as stated: at the scenario input the dedup
pass does not reinsert A at the end, so the reduced map is not
`{B: CHANGES_REQUESTED, A: APPROVED}` in that key order.
-/
theorem c4_map_is_not_B_then_A :
    dedupReviews c4list ≠ [("B", "CHANGES_REQUESTED"), ("A", "APPROVED")] := by
  decide

/--
Claim C4, amended: the dedup pass skips a re-review whose state equals
the author's last seen state, keeping the author's original position, so
the reduced map for the scenario is `{A: APPROVED, B: CHANGES_REQUESTED}`
in that key order; the classified status is still `changes`.
-/
theorem c4_map_keeps_first_position_and_status_changes :
    dedupReviews c4list = [("A", "APPROVED"), ("B", "CHANGES_REQUESTED")] ∧
    computePullRequestStatus c4pr (dedupReviews c4list) = PullRequestState.changes := by
  decide

/--
Claim C10: `parsePullRequest` is total with respect to its label and
color lookups — whatever status `computePullRequestStatus` yields, both
`prStatusMap` and `prStatusColors` contain an entry for it, so the
non-null assertions on the lookups never fail.
-/
theorem parsePullRequest_lookups_total (pr : PullRequest) (m : ReviewMap) :
    (statusMapGet (computePullRequestStatus pr m)).isSome = true ∧
    (statusColorGet (computePullRequestStatus pr m)).isSome = true := by
  refine ⟨?_, ?_⟩ <;>
    (generalize computePullRequestStatus pr m = s; cases s <;> decide)

theorem updateMessage_ptals (w : World) (cid mid : String) (p : MessagePayload) (w1 : World)
    (h : updateMessage w cid mid p = some w1) : w1.ptals = w.ptals := by
  unfold updateMessage at h
  split at h
  · cases h
    rfl
  · cases h

/--
Claim C5: whenever a reconciliation of a tracked record runs to
completion — the pull request and reviews were fetched, the channel
resolved to a guild text channel (so the silent-abort path was not
taken), and the effect resolved successfully — then if the fetched pull
request is merged the record's id is gone from the `ptals` store
immediately afterwards, and if it is not merged the store is unchanged,
so the record remains.
-/
theorem reconcile_merged_deletes_record (rec : PtalRecord) (w : World) (now : Nat)
    (pr : PullRequest) (revs : List RawReview) (ch : Channel) (w' : World)
    (hgh : lookupGithub w rec.owner rec.repository rec.pr = some (pr, revs))
    (hch : lookupChannel w rec.channel = ChannelResult.success (some ch))
    (htext : ch.type = GUILD_TEXT)
    (hok : editPtalMessage rec now w = RunResult.ok w') :
    (pr.merged = true → ∀ r ∈ w'.ptals, r.id ≠ rec.id) ∧
    (pr.merged = false → w'.ptals = w.ptals) := by
  unfold editPtalMessage at hok
  simp only [hgh, hch] at hok
  rw [if_pos htext] at hok
  split at hok
  · exact RunResult.noConfusion hok
  · rename_i origMessage hmsg
    split at hok
    · exact RunResult.noConfusion hok
    · rename_i w1 hupd
      by_cases hm : pr.merged
      · rw [if_pos hm] at hok
        cases hok
        constructor
        · intro _ r hr
          have := (List.mem_filter.mp hr).2
          simpa using this
        · intro hfalse
          rw [hm] at hfalse
          cases hfalse
      · rw [if_neg hm] at hok
        cases hok
        constructor
        · intro htrue
          exact absurd htrue hm
        · intro _
          exact updateMessage_ptals w ch.id rec.message _ w' hupd

/-- The tracked record of the C5 witness world. -/
def c5rec : PtalRecord :=
  { id := 1, channel := "chan", message := "msg", repository := "repo", owner := "owner"
    pr := 7, description := "d", guildId := "g" }

/-- The guild text channel of the C5 witness world. -/
def c5chan : Channel := { id := "chan", type := 0, guild_id := "g" }

/-- A merged pull request. -/
def c5pr : PullRequest :=
  { title := "T", draft := some false, merged := true, mergeable := some true
    mergeable_state := "clean" }

/-- A stale message payload, distinct from anything the composer produces. -/
def stalePayload : MessagePayload :=
  { content := "stale", embeds := [], components := [], allowedMentionRoles := [] }

/-- A world tracking one record whose pull request has been merged. -/
def c5world : World :=
  { ptals := [c5rec]
    nextId := 2
    guilds := [("g", none)]
    github := [(("owner", "repo", 7), (c5pr, []))]
    channels := [("chan", ChannelResult.success (some c5chan))]
    messages := [(("chan", "msg"), stalePayload)] }

/-- The world after reconciling the C5 record. -/
def c5result : World := (editPtalMessage c5rec 0 c5world).world

/-- Witness for C5: at the concrete merged-record world the reconciliation completes and the record is deleted. -/
theorem reconcile_merged_deletes_record_witness :
    (c5pr.merged = true → ∀ r ∈ c5result.ptals, r.id ≠ c5rec.id) ∧
    (c5pr.merged = false → c5result.ptals = c5world.ptals) :=
  reconcile_merged_deletes_record c5rec c5world 0 c5pr [] c5chan c5result rfl rfl rfl rfl

/-- An open, mergeable, unreviewed pull request used by the sweep scenario. -/
def sweepPr : PullRequest :=
  { title := "Title", draft := some false, merged := false, mergeable := some true
    mergeable_state := "clean" }

/-- Record #1 of the sweep scenario. -/
def sweepRec1 : PtalRecord :=
  { id := 1, channel := "chan1", message := "msg1", repository := "repo", owner := "owner"
    pr := 1, description := "d1", guildId := "g" }

/-- Record #2 of the sweep scenario; its channel fetch throws. -/
def sweepRec2 : PtalRecord :=
  { id := 2, channel := "chan2", message := "msg2", repository := "repo", owner := "owner"
    pr := 2, description := "d2", guildId := "g" }

/-- Record #3 of the sweep scenario. -/
def sweepRec3 : PtalRecord :=
  { id := 3, channel := "chan3", message := "msg3", repository := "repo", owner := "owner"
    pr := 3, description := "d3", guildId := "g" }

/-- The three-record sweep world: channels 1 and 3 resolve to guild text channels, fetching channel 2 throws, and all three tracked messages hold a stale payload. -/
def sweepWorld : World :=
  { ptals := [sweepRec1, sweepRec2, sweepRec3]
    nextId := 4
    guilds := [("g", none)]
    github :=
      [(("owner", "repo", 1), (sweepPr, [])),
       (("owner", "repo", 2), (sweepPr, [])),
       (("owner", "repo", 3), (sweepPr, []))]
    channels :=
      [("chan1", ChannelResult.success (some { id := "chan1", type := 0, guild_id := "g" })),
       ("chan2", ChannelResult.failure),
       ("chan3", ChannelResult.success (some { id := "chan3", type := 0, guild_id := "g" }))]
    messages :=
      [(("chan1", "msg1"), stalePayload),
       (("chan2", "msg2"), stalePayload),
       (("chan3", "msg3"), stalePayload)] }

/--
Counterexample to claim C6 as stated: in the artemis sweep driver
(`scheduledPTALRefresh`), the failure of record #2's channel fetch stops
the `Effect.forEach` pass, so record #3's message keeps its stale payload
— the other records are not all updated — while the apollo driver
(`checkPtalMessages`) does update record #3 at the very same world.
-/
theorem artemis_sweep_skips_after_failure :
    lookupMessage (scheduledPTALRefresh 5 sweepWorld) "chan3" "msg3" = some stalePayload ∧
    lookupMessage (checkPtalMessages 5 sweepWorld) "chan3" "msg3" ≠ some stalePayload := by
  decide

/--
Claim C6, amended: no exception ever escapes either sweep driver (both
are total functions of the world).  In the apollo driver the per-record
`try/catch` makes each iteration a total step (`tryReconcile`), so a
failure on one record never prevents the following records from being
reconciled: at the scenario world records #1 and #3 are both updated.
The artemis driver catches failures only at sweep level: record #1
(before the failure) is updated, but record #3 (after it) is skipped
until the next tick.
-/
theorem sweep_failure_isolation :
    (∀ (now : Nat) (m : PtalRecord) (rest : List PtalRecord) (w : World),
        checkGo now (m :: rest) w = checkGo now rest (tryReconcile now m w)) ∧
    lookupMessage (checkPtalMessages 5 sweepWorld) "chan1" "msg1" ≠ some stalePayload ∧
    lookupMessage (checkPtalMessages 5 sweepWorld) "chan3" "msg3" ≠ some stalePayload ∧
    lookupMessage (scheduledPTALRefresh 5 sweepWorld) "chan1" "msg1" ≠ some stalePayload ∧
    lookupMessage (scheduledPTALRefresh 5 sweepWorld) "chan3" "msg3" = some stalePayload := by
  refine ⟨?_, by decide, by decide, by decide, by decide⟩
  intro now m rest w
  rfl

/-- The guild rows of the C7 scenario: a configured announcement role. -/
def c7guilds : GuildRows := [("g", some "role1")]

/-- The pull-request URL of the C7 scenario. -/
def c7url : PrUrl := mkPullRequestUrl "own" "rep" 3

/-- The review list of the C7 scenario. -/
def c7reviews : List RawReview := [{ user := some "alice", state := "APPROVED" }]

/-- The description of the C7 scenario. -/
def c7desc : String := "please look"

/--
Counterexample to claim C7 as stated: composing the edit payload for the
same unchanged pull request at two different instants yields different
payloads, because `makePTALEmbed` stamps the composition time into the
embed (`.setTimestamp(new Date())`); the payloads are not byte-identical.
-/
theorem repeat_reconcile_payloads_differ :
    (makePTALEmbed c7guilds c4pr c7reviews c7desc c7url "g" 0).edit
      ≠ (makePTALEmbed c7guilds c4pr c7reviews c7desc c7url "g" 1).edit := by
  decide

/-- Erase the embed timestamps of a payload. -/
def stripTimestamps (p : MessagePayload) : MessagePayload :=
  { p with embeds := p.embeds.map (fun e => { e with timestamp := 0 }) }

/--
Claim C7, amended: reconciling the same unchanged pull request twice
(identical snapshot, review list, record data and guild config) produces
edit payloads that agree on every byte except the embed timestamp, which
records the composition time; in particular two compositions at the same
instant are byte-identical.
-/
theorem makePTALEmbed_deterministic_up_to_timestamp (guilds : GuildRows) (pr : PullRequest)
    (reviewList : List RawReview) (description : String) (url : PrUrl) (guildId : String)
    (t1 t2 : Nat) :
    stripTimestamps (makePTALEmbed guilds pr reviewList description url guildId t1).edit
      = stripTimestamps (makePTALEmbed guilds pr reviewList description url guildId t2).edit :=
  rfl

/--
Claim C9: in the user-triggered creation flow (`ptalFollowup`), the
`ptals` insert is a `tap` on the webhook message write, so when posting
or updating the notification chat message fails, the store is unchanged;
only a successful write appends the new record.
-/
theorem ptalFollowup_persists_only_after_write (d o r : String) (n : Nat) (g : String)
    (w : World) (cid mid : String) :
    (ptalFollowup WebhookResult.failure d o r n g w).ptals = w.ptals ∧
    (ptalFollowup (WebhookResult.success cid mid) d o r n g w).ptals
      = w.ptals ++
        [{ id := w.nextId, channel := cid, message := mid, repository := r, owner := o
           pr := n, description := d, guildId := g }] :=
  ⟨rfl, rfl⟩

/-- A bus event: the string discriminator and an opaque payload. -/
structure AppEvent where
  type : String
  payload : String

/--
Outcome of invoking a handler on an event.  Handlers are typed
`Effect.Effect<void>` — error channel `never` — so the three runtime
possibilities are: the returned effect succeeds (producing observable
effects); the returned effect fails on the typed error channel (possible
only through the unchecked cast in `subscribe`; this is the one failure
the per-handler `Effect.catchAll` can see); or the handler throws
synchronously while being invoked, which is a defect.
-/
inductive HandlerResult where
  | ok (effs : List String)
  | fail (msg : String)
  | throws (msg : String)

/-- A handler: invoked on an event, it yields one of the three outcomes. -/
abbrev EventHandler := AppEvent → HandlerResult

/-- The `listeners` map of `makeEventBus` (`core/groq.ts`): event kind → handler array. -/
abbrev Listeners := List (String × List EventHandler)

/-- `listeners.get(eventType)`. -/
def listenersGet (l : Listeners) (t : String) : Option (List EventHandler) :=
  (l.find? (fun p => p.1 == t)).map (fun p => p.2)

/-- `listeners.set(eventType, handlers)`. -/
def listenersSet (l : Listeners) (t : String) (hs : List EventHandler) : Listeners :=
  if l.any (fun p => p.1 == t) then
    l.map (fun p => if p.1 == t then (p.1, hs) else p)
  else
    l ++ [(t, hs)]

/-- `subscribe` of `makeEventBus`: push the handler onto the kind's array (`listeners.get(eventType) || []`, then `push`, then `set`). -/
def subscribe (l : Listeners) (t : String) (h : EventHandler) : Listeners :=
  listenersSet l t ((listenersGet l t).getD [] ++ [h])

/-- The consumer loop's handler lookup: `listeners.get(event.type) || []`. -/
def handlersFor (l : Listeners) (e : AppEvent) : List EventHandler :=
  (listenersGet l e.type).getD []

/--
One iteration's dispatch:
`handlers.map((handler) => Effect.catchAll(handler(event), logError))`
followed by `Effect.all(..., { concurrency: 'unbounded' })`.  Each
handler is invoked synchronously while the array is built, so a
synchronous throw aborts the iteration before any of the (lazy) effects
runs — no effect of this event is observed; a typed failure is caught by
its own `Effect.catchAll` and only logged; otherwise every handler's
effects are observed.  `Except.error` is the defect escaping the
iteration body of `Effect.forever`.
-/
def dispatchEvent : List EventHandler → AppEvent → Except String (List String)
  | [], _ => Except.ok []
  | h :: rest, e =>
    match h e with
    | .throws msg => Except.error msg
    | .ok effs =>
      match dispatchEvent rest e with
      | Except.ok more => Except.ok (effs ++ more)
      | Except.error msg => Except.error msg
    | .fail _msg =>
      match dispatchEvent rest e with
      | Except.ok more => Except.ok more
      | Except.error msg => Except.error msg

/--
The consumer loop of `makeEventBus`: the `Effect.forever` processor
fiber dequeues events one at a time, in order, and dispatches each to
the handlers of its kind.  A defect in one iteration is not caught
anywhere, so it kills the fiber: the throwing event contributes no
effect and the remaining queued events are never dispatched.
-/
def consumeLoop (l : Listeners) : List AppEvent → List String
  | [] => []
  | e :: rest =>
    match dispatchEvent (handlersFor l e) e with
    | Except.ok effs => effs ++ consumeLoop l rest
    | Except.error _ => []

/-- A handler that throws synchronously when invoked. -/
def throwingHandler : EventHandler := fun _ => .throws "boom"

/-- A sibling handler that succeeds with an observable effect. -/
def workingHandler : EventHandler := fun _ => .ok ["sibling-effect"]

/-- A handler that fails on the typed error channel — the only failure the per-handler `Effect.catchAll` can see. -/
def typedFailingHandler : EventHandler := fun _ => .fail "typed-error"

/-- An event of kind `X`. -/
def c8event : AppEvent := { type := "X", payload := "p" }

/-- Registry with the synchronously-throwing handler and the working sibling subscribed to kind `X`. -/
def throwListeners : Listeners :=
  subscribe (subscribe [] "X" throwingHandler) "X" workingHandler

/-- Registry with the typed-failing handler and the working sibling subscribed to kind `X`. -/
def failListeners : Listeners :=
  subscribe (subscribe [] "X" typedFailingHandler) "X" workingHandler

/--
Claim C8 (code bug): at the claim's own scenario — two handlers
subscribed to kind `X`, one of which throws synchronously — the throw is
a defect that the per-handler `Effect.catchAll` (which sees only the
typed error channel, typed `never` for these handlers) does not catch:
it kills the processor fiber, the sibling's effect is never observed,
and a second queued event is never dispatched (first conjunct).  The
isolation the claim — and the source's own doc comment, "Errors thrown
by handlers are caught and logged per-handler; they do not propagate to
or interrupt the processor loop" — promises is delivered only for
typed-channel failures: there the sibling's effect is observed for every
queued event and the loop continues (second conjunct).
-/
theorem sync_throw_kills_event_loop :
    consumeLoop throwListeners [c8event, c8event] = [] ∧
    consumeLoop failListeners [c8event, c8event] = ["sibling-effect", "sibling-effect"] := by
  decide
